import Mathlib

/-!
Verification of the device-placement annotation layer of
`src/relay/op/memory/on_device.cc` (TVM Relay's `on_device` helpers).

We shallowly embed the C++ functions `OnDevice`, `MaybeOnDevice`,
`GetOnDeviceProps`, `FunctionOnDevice`, `MaybeFunctionOnDevice`,
`GetFunctionResultSEScope` and `GetFunctionParamSEScope` as Lean
functions.  Fatal `ICHECK` assertion failures are modelled by the
`Except CheckError` monad: an `Except.error` value corresponds to the
C++ process aborting at that assertion.
-/

namespace RelayOnDevice

/-- Modelled from the spec: the `SEScope` placement-scope value type is not
part of the given sources (only `IsFullyUnconstrained` and structural
equality are consumed here).  Per the spec it is a device-kind +
device-index + optional memory-scope tag together with a distinguished
fully-unconstrained sentinel; equality is structural and the sentinel
equals only itself. -/
inductive SEScope where
  | fullyUnconstrained : SEScope
  | concrete (deviceKind : String) (deviceIndex : Nat) (memoryScope : Option String) : SEScope
deriving DecidableEq, Repr

/-- `SEScope::IsFullyUnconstrained`: true exactly on the sentinel. -/
def SEScope.IsFullyUnconstrained : SEScope → Bool
  | SEScope.fullyUnconstrained => true
  | SEScope.concrete _ _ _ => false

/-- Fatal `ICHECK` failures, one constructor per distinct assertion site. -/
inductive CheckError where
  /-- `OnDevice` constructor: a constraining flag is set but the scope is
  fully unconstrained (on_device.cc line 47). -/
  | onDeviceScopeInvariant : CheckError
  /-- Nested check one: "Cannot constrain result and body of nested
  on_device calls to different SEScopes" (on_device.cc line 91). -/
  | nestedResultBodyContradiction : CheckError
  /-- Nested check two: "Cannot constrain intermediate result of nested
  on_device calls to different SEScopes" (on_device.cc line 99). -/
  | intermediateContradiction : CheckError
  /-- Probe check: "on_device expects one argument" (on_device.cc line 124). -/
  | onDeviceExpectsOneArgument : CheckError
  /-- Probe check: "on_device requires attributes" (on_device.cc line 125). -/
  | onDeviceRequiresAttrs : CheckError
  /-- Probe check: "on_device requires OnDeviceAttrs" (on_device.cc line 127). -/
  | onDeviceRequiresOnDeviceAttrs : CheckError
  /-- Accessor check: "param index i out of range for function of arity n"
  (on_device.cc line 166). -/
  | paramIndexOutOfRange : CheckError
  /-- Accessor check: "annotation parameters do not match function arity"
  (on_device.cc line 174). -/
  | arityMismatch : CheckError
deriving DecidableEq, Repr

/-- The attributes object carried by a `Call` node.  `undefined` is the
default (null) `Attrs`; `onDeviceAttrs` embeds `OnDeviceAttrs` with its
`se_scope`, `constrain_result` and `constrain_body` fields; `otherAttrs`
stands for any attributes object of a different runtime type (for which
`attrs.as<OnDeviceAttrs>()` yields null). -/
inductive Attrs where
  | undefined : Attrs
  | onDeviceAttrs (se_scope : SEScope) (constrain_result : Bool) (constrain_body : Bool) : Attrs
  | otherAttrs (tag : Nat) : Attrs
deriving DecidableEq, Repr

/-- A Relay `Function` value, restricted to the parts the given sources
touch: the parameter list (only its length and identity matter here) and
the two `DictAttrs` entries `tvm::attr::kParamSEScopes` and
`tvm::attr::kResultSEScope` read via `GetAttr` and written via
`WithAttrs`.  An absent dictionary entry is `none`.  The function body is
never inspected by the embedded code, so it is omitted. -/
structure RelayFunction where
  params : List String
  paramSEScopesAttr : Option (List SEScope)
  resultSEScopeAttr : Option SEScope
deriving DecidableEq, Repr

/-- The Relay expression node kinds distinguished by
`on_device.cc`: bare operator references (`OpNode`), constructor
references (`ConstructorNode`), global and local variable references
(`GlobalVarNode` / `VarNode`), function values (`FunctionNode`), calls
(`CallNode`, carrying callee, arguments and attributes), and a catch-all
`otherExpr` for every remaining node kind (constants, tuples, lets, ...)
which the embedded code treats uniformly. -/
inductive Expr where
  | opRef (name : String) : Expr
  | constructorRef (name : String) : Expr
  | globalVar (name : String) : Expr
  | var (name : String) : Expr
  | functionValue (fn : RelayFunction) : Expr
  | call (op : Expr) (args : List Expr) (attrs : Attrs) : Expr
  | otherExpr (tag : Nat) : Expr

/-- `body->IsInstance<OpNode>()`. -/
def Expr.isOpNode : Expr → Bool
  | Expr.opRef _ => true
  | _ => false

/-- `body->IsInstance<ConstructorNode>()`. -/
def Expr.isConstructorNode : Expr → Bool
  | Expr.constructorRef _ => true
  | _ => false

/-- `body->IsInstance<GlobalVarNode>()`. -/
def Expr.isGlobalVarNode : Expr → Bool
  | Expr.globalVar _ => true
  | _ => false

/-- `body->IsInstance<VarNode>()`. -/
def Expr.isVarNode : Expr → Bool
  | Expr.var _ => true
  | _ => false

/-- `body->IsInstance<FunctionNode>()`. -/
def Expr.isFunctionNode : Expr → Bool
  | Expr.functionValue _ => true
  | _ => false

/-- `OnDeviceOp()`: the interned operator `Op::Get("on_device")`.  Two
`Op` references are equal iff they name the same registered operator. -/
def OnDeviceOp : Expr := Expr.opRef "on_device"

/-- `call_node->op == OnDeviceOp()`: operators are interned by name, so
the comparison holds exactly when the callee is the operator registered
under the name "on_device". -/
def Expr.isOnDeviceOp : Expr → Bool
  | Expr.opRef n => n = "on_device"
  | _ => false

/-- `OnDeviceProps` (from on_device.h): the result of probing an
expression for `on_device`-call-hood.  A default-constructed value has an
undefined `body`, modelled by `none`. -/
structure OnDeviceProps where
  body : Option Expr
  se_scope : SEScope
  constrain_result : Bool
  constrain_body : Bool

/-- The default-constructed `OnDeviceProps` returned for non-`on_device`
expressions. -/
def OnDeviceProps.noProps : OnDeviceProps :=
  { body := none
    se_scope := SEScope.fullyUnconstrained
    constrain_result := false
    constrain_body := false }

/-- `Call OnDevice(Expr body, SEScope se_scope, bool constrain_result,
bool constrain_body)` (on_device.cc lines 46-56).  The leading `ICHECK`
aborts when a constraining flag is set yet the scope is fully
unconstrained; otherwise the node stores the given scope when at least
one flag is set and the unconstrained sentinel when neither is. -/
def OnDevice (body : Expr) (se_scope : SEScope) (constrain_result : Bool)
    (constrain_body : Bool) : Except CheckError Expr :=
  if (!constrain_result && !constrain_body) || !se_scope.IsFullyUnconstrained then
    Except.ok (Expr.call OnDeviceOp [body]
      (Attrs.onDeviceAttrs
        (if constrain_result || constrain_body then se_scope
         else SEScope.fullyUnconstrained)
        constrain_result constrain_body))
  else
    Except.error CheckError.onDeviceScopeInvariant

/-- `OnDeviceProps GetOnDeviceProps(const CallNode*)` (on_device.cc lines
122-132), taking the call node's three fields. -/
def GetOnDevicePropsCall (op : Expr) (args : List Expr) (attrs : Attrs) :
    Except CheckError OnDeviceProps :=
  if op.isOnDeviceOp then
    match args with
    | [arg] =>
      match attrs with
      | Attrs.onDeviceAttrs s cr cb =>
        Except.ok { body := some arg, se_scope := s, constrain_result := cr,
                    constrain_body := cb }
      | Attrs.undefined => Except.error CheckError.onDeviceRequiresAttrs
      | Attrs.otherAttrs _ => Except.error CheckError.onDeviceRequiresOnDeviceAttrs
    | _ => Except.error CheckError.onDeviceExpectsOneArgument
  else
    Except.ok OnDeviceProps.noProps

/-- `OnDeviceProps GetOnDeviceProps(const Expr&)` (on_device.cc lines
134-139): dispatch on call-node-hood. -/
def GetOnDeviceProps : Expr → Except CheckError OnDeviceProps
  | Expr.call op args attrs => GetOnDevicePropsCall op args attrs
  | _ => Except.ok OnDeviceProps.noProps

/-- `Expr MaybeOnDevice(Expr body, SEScope se_scope, bool
constrain_result, bool constrain_body)` (on_device.cc lines 60-108),
transcribed clause by clause.  The two nested-merge `ICHECK(inner ==
outer)` assertions become the two contradiction errors. -/
def MaybeOnDevice (body : Expr) (se_scope : SEScope) (constrain_result : Bool)
    (constrain_body : Bool) : Except CheckError Expr :=
  if se_scope.IsFullyUnconstrained then
    -- Nothing to annotate with.
    Except.ok body
  else if body.isOpNode || body.isConstructorNode then
    -- These operators are device polymorphic so no annotation is required.
    Except.ok body
  else if body.isGlobalVarNode || body.isVarNode then
    -- The device can be recovered from the binding site.
    Except.ok body
  else if body.isFunctionNode then
    -- Device is captured by the function's own attribute.
    Except.ok body
  else
    match GetOnDeviceProps body with
    | Except.error e => Except.error e
    | Except.ok props =>
      match props.body with
      | some innerBody =>
        let inner := props.se_scope
        let outer := se_scope
        let constrain_outer := constrain_result
        let constrain_inner := props.constrain_body
        if constrain_outer ∧ constrain_inner ∧ inner ≠ outer then
          Except.error CheckError.nestedResultBodyContradiction
        else if constrain_body ∧ props.constrain_result ∧ inner ≠ outer then
          Except.error CheckError.intermediateContradiction
        else
          OnDevice innerBody
            (if constrain_inner || constrain_outer then outer else inner)
            constrain_outer constrain_inner
      | none => OnDevice body se_scope constrain_result constrain_body

/-- `Function FunctionOnDevice(Function, Array<SEScope>, SEScope)`
(on_device.cc lines 141-145): attach both placement attributes via
`WithAttrs`, replacing any previous values. -/
def FunctionOnDevice (function : RelayFunction) (param_se_scopes : List SEScope)
    (result_se_scope : SEScope) : RelayFunction :=
  { function with
    paramSEScopesAttr := some param_se_scopes
    resultSEScopeAttr := some result_se_scope }

/-- `Function MaybeFunctionOnDevice(...)` (on_device.cc lines 149-158):
skip attaching when every scope is fully unconstrained. -/
def MaybeFunctionOnDevice (function : RelayFunction)
    (param_se_scopes : List SEScope) (result_se_scope : SEScope) : RelayFunction :=
  if param_se_scopes.all (fun s => s.IsFullyUnconstrained)
      && result_se_scope.IsFullyUnconstrained then
    function
  else
    FunctionOnDevice function param_se_scopes result_se_scope

/-- `SEScope GetFunctionResultSEScope(const FunctionNode*)` (on_device.cc
lines 160-163): the attached result scope, defaulting to fully
unconstrained. -/
def GetFunctionResultSEScope (function : RelayFunction) : SEScope :=
  function.resultSEScopeAttr.getD SEScope.fullyUnconstrained

/-- `SEScope GetFunctionParamSEScope(const FunctionNode*, size_t)`
(on_device.cc lines 165-177): fatal on out-of-range index; fully
unconstrained when no parameter-scope attribute is attached; fatal when
the attached list's length disagrees with the arity; otherwise the i-th
attached scope. -/
def GetFunctionParamSEScope (function : RelayFunction) (i : Nat) :
    Except CheckError SEScope :=
  if hi : i < function.params.length then
    match harr : function.paramSEScopesAttr with
    | none => Except.ok SEScope.fullyUnconstrained
    | some arr =>
      if hlen : arr.length = function.params.length then
        Except.ok (arr.get ⟨i, by rw [hlen]; exact hi⟩)
      else
        Except.error CheckError.arityMismatch
  else
    Except.error CheckError.paramIndexOutOfRange

end RelayOnDevice

namespace RelayOnDevice

/-- Does a fatal error report a placement contradiction between two
constraint sources (spec section 7), as opposed to an arity violation or
a malformed-node check? -/
def CheckError.isPlacementContradiction : CheckError → Bool
  | CheckError.nestedResultBodyContradiction => true
  | CheckError.intermediateContradiction => true
  | _ => false

/-- A concrete accelerator scope used in witnesses. -/
def scopeA : SEScope := SEScope.concrete "accel" 0 none

/-- A concrete processor scope used in witnesses, distinct from `scopeA`. -/
def scopeB : SEScope := SEScope.concrete "cpu" 0 none

/-- A concrete call expression (neither device polymorphic nor an
`on_device` call) used in witnesses. -/
def callX : Expr := Expr.call (Expr.opRef "add") [Expr.var "v"] Attrs.undefined

/-- C7: annotating with the fully-unconstrained scope is a no-op:
`MaybeOnDevice e unconstrained false false` returns `e` unchanged. -/
theorem maybeOnDevice_unconstrained_noop (e : Expr) :
    MaybeOnDevice e SEScope.fullyUnconstrained false false = Except.ok e := by
  simp [MaybeOnDevice, SEScope.IsFullyUnconstrained]

/-- C8: for every device-polymorphic body (a bare operator reference, a
bare constructor reference, a bare global or local variable reference, or
a function value), `MaybeOnDevice` returns the body unchanged, for every
requested scope and every combination of the two constraint flags. -/
theorem maybeOnDevice_polymorphic_unchanged (body : Expr) (se_scope : SEScope)
    (constrain_result constrain_body : Bool)
    (h : (body.isOpNode || body.isConstructorNode || body.isGlobalVarNode
      || body.isVarNode || body.isFunctionNode) = true) :
    MaybeOnDevice body se_scope constrain_result constrain_body = Except.ok body := by
  cases body <;>
    simp_all [MaybeOnDevice, Expr.isOpNode, Expr.isConstructorNode,
      Expr.isGlobalVarNode, Expr.isVarNode, Expr.isFunctionNode]

/-- Witness for C8: a bare local variable with a concrete scope and both
flags set is returned unchanged. -/
theorem maybeOnDevice_polymorphic_unchanged_witness :
    ((Expr.var "v").isOpNode || (Expr.var "v").isConstructorNode
      || (Expr.var "v").isGlobalVarNode || (Expr.var "v").isVarNode
      || (Expr.var "v").isFunctionNode) = true
    ∧ MaybeOnDevice (Expr.var "v") scopeA true true = Except.ok (Expr.var "v") :=
  ⟨by decide, maybeOnDevice_polymorphic_unchanged (Expr.var "v") scopeA true true (by decide)⟩

/-- C6: `GetFunctionParamSEScope` fails fatally on an out-of-range
parameter index; fails fatally when placement metadata is attached but
its parameter-scope list length differs from the arity; returns the i-th
attached scope when metadata is attached with matching length; and
returns the unconstrained scope when no metadata is attached. -/
theorem getFunctionParamSEScope_spec (fn : RelayFunction) (i : Nat) :
    (fn.params.length ≤ i →
      GetFunctionParamSEScope fn i = Except.error CheckError.paramIndexOutOfRange)
    ∧ (∀ arr, i < fn.params.length → fn.paramSEScopesAttr = some arr →
        arr.length ≠ fn.params.length →
        GetFunctionParamSEScope fn i = Except.error CheckError.arityMismatch)
    ∧ (i < fn.params.length → fn.paramSEScopesAttr = none →
        GetFunctionParamSEScope fn i = Except.ok SEScope.fullyUnconstrained)
    ∧ (∀ arr s, i < fn.params.length → fn.paramSEScopesAttr = some arr →
        arr.length = fn.params.length → arr.get? i = some s →
        GetFunctionParamSEScope fn i = Except.ok s) := by
  refine ⟨?_, ?_, ?_, ?_⟩
  · intro hle
    rw [GetFunctionParamSEScope, dif_neg (by omega)]
  · intro arr hlt hattr hne
    rw [GetFunctionParamSEScope, dif_pos hlt]
    split
    · simp_all
    · rename_i arr2 harr2
      rw [hattr] at harr2
      cases harr2
      rw [dif_neg hne]
  · intro hlt hattr
    rw [GetFunctionParamSEScope, dif_pos hlt]
    split
    · rfl
    · simp_all
  · intro arr s hlt hattr hlen hget
    rw [GetFunctionParamSEScope, dif_pos hlt]
    split
    · simp_all
    · rename_i arr2 harr2
      rw [hattr] at harr2
      cases harr2
      rw [dif_pos hlen]
      rw [List.get?_eq_get (by omega)] at hget
      simpa using hget

/-- Witness for C6: index 1 is out of range for a 1-parameter function. -/
theorem getFunctionParamSEScope_spec_witness :
    (RelayFunction.mk ["p"] none none).params.length ≤ 1
    ∧ GetFunctionParamSEScope (RelayFunction.mk ["p"] none none) 1
        = Except.error CheckError.paramIndexOutOfRange :=
  ⟨by decide,
    (getFunctionParamSEScope_spec (RelayFunction.mk ["p"] none none) 1).1 (by decide)⟩

/-- C9: attached function-placement metadata is read back exactly:
attaching an empty parameter list and the unconstrained result scope makes
`GetFunctionResultSEScope` return unconstrained; attaching `[A, B]` and
`C` to a 2-parameter function makes `GetFunctionParamSEScope _ 1` return
`B` and `GetFunctionParamSEScope _ 2` fail with an arity violation. -/
theorem functionOnDevice_accessor_roundtrip (fn : RelayFunction) (A B C : SEScope)
    (h2 : fn.params.length = 2) :
    GetFunctionResultSEScope (FunctionOnDevice fn [] SEScope.fullyUnconstrained)
      = SEScope.fullyUnconstrained
    ∧ GetFunctionParamSEScope (FunctionOnDevice fn [A, B] C) 1 = Except.ok B
    ∧ GetFunctionParamSEScope (FunctionOnDevice fn [A, B] C) 2
      = Except.error CheckError.paramIndexOutOfRange := by
  refine ⟨rfl, ?_, ?_⟩
  · rw [GetFunctionParamSEScope]
    rw [dif_pos (by simp [FunctionOnDevice, h2])]
    split
    · simp_all [FunctionOnDevice]
    · rename_i arr harr
      simp only [FunctionOnDevice] at harr
      cases harr
      rw [dif_pos (by simp [FunctionOnDevice, h2])]
      rfl
  · rw [GetFunctionParamSEScope]
    rw [dif_neg (by simp [FunctionOnDevice, h2])]

/-- Witness for C9: a concrete 2-parameter function with concrete scopes. -/
theorem functionOnDevice_accessor_roundtrip_witness :
    (RelayFunction.mk ["p", "q"] none none).params.length = 2
    ∧ (GetFunctionResultSEScope
        (FunctionOnDevice (RelayFunction.mk ["p", "q"] none none) []
          SEScope.fullyUnconstrained) = SEScope.fullyUnconstrained
      ∧ GetFunctionParamSEScope
          (FunctionOnDevice (RelayFunction.mk ["p", "q"] none none) [scopeA, scopeB]
            (SEScope.concrete "cpu" 1 none)) 1 = Except.ok scopeB
      ∧ GetFunctionParamSEScope
          (FunctionOnDevice (RelayFunction.mk ["p", "q"] none none) [scopeA, scopeB]
            (SEScope.concrete "cpu" 1 none)) 2
          = Except.error CheckError.paramIndexOutOfRange) :=
  ⟨by decide,
    functionOnDevice_accessor_roundtrip (RelayFunction.mk ["p", "q"] none none)
      scopeA scopeB (SEScope.concrete "cpu" 1 none) (by decide)⟩

/-- C10: the `OnDevice` constructor enforces the two-way invariant: a
constraining flag together with a fully-unconstrained scope is a fatal
assertion failure, and every successfully constructed annotation stores a
concrete scope if and only if at least one constraint flag is set (with
the stored scope forced to the unconstrained sentinel when both flags are
false). -/
theorem onDevice_scope_invariant (body : Expr) (se_scope : SEScope)
    (constrain_result constrain_body : Bool) :
    ((constrain_result || constrain_body) = true →
      se_scope.IsFullyUnconstrained = true →
      OnDevice body se_scope constrain_result constrain_body
        = Except.error CheckError.onDeviceScopeInvariant)
    ∧ (∀ e, OnDevice body se_scope constrain_result constrain_body = Except.ok e →
        ∃ s, e = Expr.call OnDeviceOp [body]
            (Attrs.onDeviceAttrs s constrain_result constrain_body)
          ∧ (s.IsFullyUnconstrained = false ↔ (constrain_result || constrain_body) = true)
          ∧ ((constrain_result || constrain_body) = false →
              s = SEScope.fullyUnconstrained)) := by
  constructor
  · intro hflag hscope
    cases constrain_result <;> cases constrain_body <;>
      simp_all [OnDevice, SEScope.IsFullyUnconstrained]
  · intro e he
    cases constrain_result <;> cases constrain_body <;> cases se_scope <;>
      simp_all [OnDevice, SEScope.IsFullyUnconstrained] <;>
      exact ⟨_, he.symm, by simp [SEScope.IsFullyUnconstrained]⟩

/-- Witness for C10: constructing with `constrain_result` set and the
unconstrained scope aborts. -/
theorem onDevice_scope_invariant_witness :
    (true || false) = true
    ∧ SEScope.fullyUnconstrained.IsFullyUnconstrained = true
    ∧ OnDevice callX SEScope.fullyUnconstrained true false
        = Except.error CheckError.onDeviceScopeInvariant :=
  ⟨rfl, rfl, (onDevice_scope_invariant callX SEScope.fullyUnconstrained true false).1 rfl rfl⟩

/-- Core characterisation of the nested-merge branch of `MaybeOnDevice`:
when the body is a well-formed `on_device` call and the requested scope is
concrete, the call runs the two contradiction checks in source order and
otherwise collapses one level via the `OnDevice` constructor. -/
theorem maybeOnDevice_nested_eq (innerBody : Expr) (iscope oscope : SEScope)
    (icr icb ocr ocb : Bool) (houter : oscope.IsFullyUnconstrained = false) :
    MaybeOnDevice (Expr.call OnDeviceOp [innerBody] (Attrs.onDeviceAttrs iscope icr icb))
        oscope ocr ocb
      = if ocr = true ∧ icb = true ∧ iscope ≠ oscope then
          Except.error CheckError.nestedResultBodyContradiction
        else if ocb = true ∧ icr = true ∧ iscope ≠ oscope then
          Except.error CheckError.intermediateContradiction
        else
          OnDevice innerBody (if icb || ocr then oscope else iscope) ocr icb := by
  rw [MaybeOnDevice]
  rw [if_neg (by simp [houter])]
  rw [if_neg (by simp [Expr.isOpNode, Expr.isConstructorNode])]
  rw [if_neg (by simp [Expr.isGlobalVarNode, Expr.isVarNode])]
  rw [if_neg (by simp [Expr.isFunctionNode])]
  rfl

/-- When the body is neither device polymorphic nor an `on_device` call,
a concrete-scope request wraps it freshly via the `OnDevice` constructor. -/
theorem maybeOnDevice_fresh_eq (x : Expr) (S : SEScope) (cr cb : Bool)
    (hS : S.IsFullyUnconstrained = false)
    (hpoly : (x.isOpNode || x.isConstructorNode || x.isGlobalVarNode
      || x.isVarNode || x.isFunctionNode) = false)
    (hprops : GetOnDeviceProps x = Except.ok OnDeviceProps.noProps) :
    MaybeOnDevice x S cr cb = OnDevice x S cr cb := by
  simp only [Bool.or_eq_false_iff] at hpoly
  obtain ⟨⟨⟨⟨h1, h2⟩, h3⟩, h4⟩, h5⟩ := hpoly
  rw [MaybeOnDevice]
  rw [if_neg (by simp [hS])]
  rw [if_neg (by simp [h1, h2])]
  rw [if_neg (by simp [h3, h4])]
  rw [if_neg (by simp [h5])]
  rw [hprops]
  rfl

/-- The collapsed single-level annotation always constructs successfully
when the outer scope is concrete: either a constraining flag is set and
the chosen scope is the concrete outer one, or no flag is set at all. -/
theorem onDevice_collapse_ok (b : Expr) (iscope oscope : SEScope) (ocr icb : Bool)
    (houter : oscope.IsFullyUnconstrained = false) :
    ∃ e, OnDevice b (if icb || ocr then oscope else iscope) ocr icb = Except.ok e := by
  cases ocr <;> cases icb <;> simp [OnDevice, houter]

/-- C1 (amended): in the nested-merge case, if both middle-value sources
are active and the scopes differ the call fails with a placement
contradiction; if both are active and the scopes agree it succeeds; and
if at most one middle source is active no middle-value check is
performed, but the call succeeds only provided the independent
outer-result/innermost-body check (`constrain_result` with the inner
`constrain_body` and differing scopes) does not fire. -/
theorem nested_middle_value_resolution (innerBody : Expr) (iscope oscope : SEScope)
    (icr icb ocr ocb : Bool) (houter : oscope.IsFullyUnconstrained = false) :
    ((ocb && icr) = true → iscope ≠ oscope →
      ∃ err, MaybeOnDevice
          (Expr.call OnDeviceOp [innerBody] (Attrs.onDeviceAttrs iscope icr icb))
          oscope ocr ocb = Except.error err
        ∧ err.isPlacementContradiction = true)
    ∧ ((ocb && icr) = true → iscope = oscope →
      ∃ e, MaybeOnDevice
          (Expr.call OnDeviceOp [innerBody] (Attrs.onDeviceAttrs iscope icr icb))
          oscope ocr ocb = Except.ok e)
    ∧ ((ocb && icr) = false → ¬(ocr = true ∧ icb = true ∧ iscope ≠ oscope) →
      ∃ e, MaybeOnDevice
          (Expr.call OnDeviceOp [innerBody] (Attrs.onDeviceAttrs iscope icr icb))
          oscope ocr ocb = Except.ok e) := by
  rw [maybeOnDevice_nested_eq innerBody iscope oscope icr icb ocr ocb houter]
  refine ⟨?_, ?_, ?_⟩
  · intro hmid hne
    simp only [Bool.and_eq_true] at hmid
    by_cases hfirst : ocr = true ∧ icb = true ∧ iscope ≠ oscope
    · rw [if_pos hfirst]
      exact ⟨CheckError.nestedResultBodyContradiction, rfl, rfl⟩
    · rw [if_neg hfirst, if_pos ⟨hmid.1, hmid.2, hne⟩]
      exact ⟨CheckError.intermediateContradiction, rfl, rfl⟩
  · intro hmid heq
    subst heq
    rw [if_neg (by simp), if_neg (by simp)]
    exact onDevice_collapse_ok innerBody iscope iscope ocr icb houter
  · intro hmid hfirst
    rw [if_neg hfirst]
    rw [if_neg (fun h => by rw [h.1, h.2.1] at hmid; simp at hmid)]
    exact onDevice_collapse_ok innerBody iscope oscope ocr icb houter

/-- Witness for C1: both middle sources active (outer `constrain_body`,
inner `constrain_result`) with distinct concrete scopes aborts with a
placement contradiction. -/
theorem nested_middle_value_resolution_witness :
    scopeB.IsFullyUnconstrained = false
    ∧ (true && true) = true
    ∧ scopeA ≠ scopeB
    ∧ (∃ err, MaybeOnDevice
          (Expr.call OnDeviceOp [callX] (Attrs.onDeviceAttrs scopeA true false))
          scopeB false true = Except.error err
        ∧ err.isPlacementContradiction = true) :=
  ⟨rfl, rfl, by decide,
    (nested_middle_value_resolution callX scopeA scopeB true false false true rfl).1
      rfl (by decide)⟩

/-- Counterexample for C1 as stated: outer call `(cr = true, cb = false)`
over inner annotation `(cr = false, cb = true)` leaves both middle-value
sources inactive (`outer.constrain_body = false`,
`inner.constrain_result = false`), yet the call fails rather than
succeeding, because the independent outer-result/innermost-body check
fires on the differing scopes. -/
theorem nested_middle_inactive_still_fails :
    (false && false) = false
    ∧ MaybeOnDevice
        (Expr.call OnDeviceOp [Expr.otherExpr 1]
          (Attrs.onDeviceAttrs (SEScope.concrete "accel" 0 none) false true))
        (SEScope.concrete "cpu" 0 none) true false
      = Except.error CheckError.nestedResultBodyContradiction :=
  ⟨rfl, rfl⟩

/-- C2 (amended): the outer call's `constrain_result` and the inner
annotation's `constrain_body` are NOT treated as independent: the merge
checks them against each other, and whenever both are set with differing
scopes the call fails with a placement-contradiction error, regardless of
the middle-value sources. -/
theorem nested_result_body_check_fires (innerBody : Expr) (iscope oscope : SEScope)
    (icr icb ocr ocb : Bool) (houter : oscope.IsFullyUnconstrained = false)
    (hocr : ocr = true) (hicb : icb = true) (hne : iscope ≠ oscope) :
    MaybeOnDevice (Expr.call OnDeviceOp [innerBody] (Attrs.onDeviceAttrs iscope icr icb))
        oscope ocr ocb
      = Except.error CheckError.nestedResultBodyContradiction := by
  rw [maybeOnDevice_nested_eq innerBody iscope oscope icr icb ocr ocb houter]
  rw [if_pos ⟨hocr, hicb, hne⟩]

/-- Witness for C2 (amended): concrete nested call with
`outer.constrain_result` and `inner.constrain_body` set and differing
scopes. -/
theorem nested_result_body_check_fires_witness :
    scopeB.IsFullyUnconstrained = false
    ∧ scopeA ≠ scopeB
    ∧ MaybeOnDevice
        (Expr.call OnDeviceOp [callX] (Attrs.onDeviceAttrs scopeA false true))
        scopeB true false
      = Except.error CheckError.nestedResultBodyContradiction :=
  ⟨rfl, by decide,
    nested_result_body_check_fires callX scopeA scopeB false true true false
      rfl rfl rfl (by decide)⟩

/-- Counterexample for C2 as stated: `outer.constrain_result` and
`inner.constrain_body` both set, middle-value sources not both active
(`outer.constrain_body = false`, `inner.constrain_result = false`),
scopes differ — the claim says the merge succeeds, but the code fails
with a placement-contradiction error. -/
theorem nested_result_body_not_independent :
    (false && false) = false
    ∧ MaybeOnDevice
        (Expr.call OnDeviceOp [Expr.otherExpr 2]
          (Attrs.onDeviceAttrs (SEScope.concrete "gpu" 0 none) false true))
        (SEScope.concrete "cpu" 1 none) true false
      = Except.error CheckError.nestedResultBodyContradiction :=
  ⟨rfl, rfl⟩

/-- C3 (amended): when both contradiction checks pass, the nested merge
collapses exactly one level via the plain `OnDevice` constructor (not by
re-entering `MaybeOnDevice`): the result is a single annotation over the
inner annotation's body carrying the outer `constrain_result` flag and
the inner `constrain_body` flag, so a triply-nested annotation is left
with its inner level intact rather than being normalized to a single
annotation over the innermost body. -/
theorem nested_merge_collapses_one_level (innerBody : Expr) (iscope oscope : SEScope)
    (icr icb ocr ocb : Bool) (houter : oscope.IsFullyUnconstrained = false)
    (hchk1 : ¬(ocr = true ∧ icb = true ∧ iscope ≠ oscope))
    (hchk2 : ¬(ocb = true ∧ icr = true ∧ iscope ≠ oscope)) :
    MaybeOnDevice (Expr.call OnDeviceOp [innerBody] (Attrs.onDeviceAttrs iscope icr icb))
        oscope ocr ocb
      = Except.ok (Expr.call OnDeviceOp [innerBody]
          (Attrs.onDeviceAttrs
            (if icb || ocr then oscope else SEScope.fullyUnconstrained) ocr icb)) := by
  rw [maybeOnDevice_nested_eq innerBody iscope oscope icr icb ocr ocb houter]
  rw [if_neg hchk1, if_neg hchk2]
  cases ocr <;> cases icb <;> simp [OnDevice, houter]

/-- Witness for C3 (amended): collapsing an outer request over a
doubly-nested annotation yields an annotation whose body is still the
inner annotation. -/
theorem nested_merge_collapses_one_level_witness :
    scopeA.IsFullyUnconstrained = false
    ∧ ¬(true = true ∧ true = true ∧ scopeA ≠ scopeA)
    ∧ MaybeOnDevice
        (Expr.call OnDeviceOp
          [Expr.call OnDeviceOp [callX] (Attrs.onDeviceAttrs scopeA true true)]
          (Attrs.onDeviceAttrs scopeA true true))
        scopeA true true
      = Except.ok (Expr.call OnDeviceOp
          [Expr.call OnDeviceOp [callX] (Attrs.onDeviceAttrs scopeA true true)]
          (Attrs.onDeviceAttrs (if true || true then scopeA else SEScope.fullyUnconstrained)
            true true)) :=
  ⟨rfl, by decide,
    nested_merge_collapses_one_level
      (Expr.call OnDeviceOp [callX] (Attrs.onDeviceAttrs scopeA true true))
      scopeA scopeA true true true true rfl (by decide) (by decide)⟩

/-- Counterexample for C3 as stated: a triply-nested annotation request
does not normalize to a single annotation over the innermost body
`Expr.otherExpr 3`; the result still wraps an `on_device` call. -/
theorem triple_nesting_not_normalized :
    MaybeOnDevice
        (Expr.call OnDeviceOp
          [Expr.call OnDeviceOp [Expr.otherExpr 3]
            (Attrs.onDeviceAttrs (SEScope.concrete "accel" 1 none) true true)]
          (Attrs.onDeviceAttrs (SEScope.concrete "accel" 1 none) true true))
        (SEScope.concrete "accel" 1 none) true true
      = Except.ok (Expr.call OnDeviceOp
          [Expr.call OnDeviceOp [Expr.otherExpr 3]
            (Attrs.onDeviceAttrs (SEScope.concrete "accel" 1 none) true true)]
          (Attrs.onDeviceAttrs (SEScope.concrete "accel" 1 none) true true)) :=
  rfl

/-- C4 (amended): for every expression `x` that is neither device
polymorphic nor an `on_device` call, and distinct concrete scopes `A` and
`B`, `MaybeOnDevice (MaybeOnDevice x A false true) B true false` fails
with a placement-contradiction error (raised by the nested
result/body check); and with the same concrete scope `A` twice it
succeeds, producing a single annotation over `x` whose scope equals `A`. -/
theorem double_wrap_contradiction_detection (x : Expr) (A B : SEScope)
    (hpoly : (x.isOpNode || x.isConstructorNode || x.isGlobalVarNode
      || x.isVarNode || x.isFunctionNode) = false)
    (hprops : GetOnDeviceProps x = Except.ok OnDeviceProps.noProps)
    (hA : A.IsFullyUnconstrained = false) (hB : B.IsFullyUnconstrained = false)
    (hAB : A ≠ B) :
    (MaybeOnDevice x A false true).bind (fun w => MaybeOnDevice w B true false)
      = Except.error CheckError.nestedResultBodyContradiction
    ∧ (MaybeOnDevice x A false true).bind (fun w => MaybeOnDevice w A true false)
      = Except.ok (Expr.call OnDeviceOp [x] (Attrs.onDeviceAttrs A true true)) := by
  have hw : MaybeOnDevice x A false true
      = Except.ok (Expr.call OnDeviceOp [x] (Attrs.onDeviceAttrs A false true)) := by
    rw [maybeOnDevice_fresh_eq x A false true hA hpoly hprops]
    simp [OnDevice, hA]
  constructor
  · rw [hw]
    show MaybeOnDevice _ B true false = _
    rw [maybeOnDevice_nested_eq x A B false true true false hB]
    rw [if_pos ⟨rfl, rfl, hAB⟩]
  · rw [hw]
    show MaybeOnDevice _ A true false = _
    rw [maybeOnDevice_nested_eq x A A false true true false hA]
    rw [if_neg (by simp), if_neg (by simp)]
    simp [OnDevice, hA]

/-- Witness for C4 (amended): a call expression with the two concrete
scopes `scopeA` and `scopeB`. -/
theorem double_wrap_contradiction_detection_witness :
    (callX.isOpNode || callX.isConstructorNode || callX.isGlobalVarNode
      || callX.isVarNode || callX.isFunctionNode) = false
    ∧ GetOnDeviceProps callX = Except.ok OnDeviceProps.noProps
    ∧ scopeA ≠ scopeB
    ∧ (MaybeOnDevice callX scopeA false true).bind
        (fun w => MaybeOnDevice w scopeB true false)
      = Except.error CheckError.nestedResultBodyContradiction
    ∧ (MaybeOnDevice callX scopeA false true).bind
        (fun w => MaybeOnDevice w scopeA true false)
      = Except.ok (Expr.call OnDeviceOp [callX] (Attrs.onDeviceAttrs scopeA true true)) :=
  ⟨rfl, rfl, by decide,
    (double_wrap_contradiction_detection callX scopeA scopeB rfl rfl rfl rfl
      (by decide)).1,
    (double_wrap_contradiction_detection callX scopeA scopeB rfl rfl rfl rfl
      (by decide)).2⟩

/-- Counterexample for C4 as stated ("for every expression x"): with a
bare variable the inner request is skipped (device-polymorphic), so the
outer request with a different scope succeeds instead of failing; and
with a trivially-annotated body (both flags false) the two requests merge
without any error as well. -/
theorem double_wrap_no_error_cases :
    scopeA ≠ scopeB
    ∧ (MaybeOnDevice (Expr.var "u") scopeA false true).bind
        (fun w => MaybeOnDevice w scopeB true false) = Except.ok (Expr.var "u")
    ∧ (MaybeOnDevice
          (Expr.call OnDeviceOp [Expr.otherExpr 4]
            (Attrs.onDeviceAttrs SEScope.fullyUnconstrained false false))
          scopeA false true).bind
        (fun w => MaybeOnDevice w scopeB true false)
      = Except.ok (Expr.call OnDeviceOp [Expr.otherExpr 4]
          (Attrs.onDeviceAttrs scopeB true false)) :=
  ⟨by decide, rfl, rfl⟩

/-- C5 (amended): for every expression `x` that is neither device
polymorphic nor an `on_device` call, a concrete scope `S` and any flags,
`MaybeOnDevice x S cr cb` produces a single annotation over `x`, and
re-applying `MaybeOnDevice` with the identical scope and flags returns
exactly that same single annotation — never a double wrapping — so its
decomposition trivially agrees with the single-wrapped original's. -/
theorem rewrap_identical_idempotent (x : Expr) (S : SEScope) (cr cb : Bool)
    (hS : S.IsFullyUnconstrained = false)
    (hpoly : (x.isOpNode || x.isConstructorNode || x.isGlobalVarNode
      || x.isVarNode || x.isFunctionNode) = false)
    (hprops : GetOnDeviceProps x = Except.ok OnDeviceProps.noProps) :
    MaybeOnDevice x S cr cb
      = Except.ok (Expr.call OnDeviceOp [x]
          (Attrs.onDeviceAttrs (if cr || cb then S else SEScope.fullyUnconstrained) cr cb))
    ∧ (MaybeOnDevice x S cr cb).bind (fun w => MaybeOnDevice w S cr cb)
      = MaybeOnDevice x S cr cb := by
  have h1 : MaybeOnDevice x S cr cb
      = Except.ok (Expr.call OnDeviceOp [x]
          (Attrs.onDeviceAttrs (if cr || cb then S else SEScope.fullyUnconstrained) cr cb)) := by
    rw [maybeOnDevice_fresh_eq x S cr cb hS hpoly hprops]
    cases cr <;> cases cb <;> simp [OnDevice, hS]
  refine ⟨h1, ?_⟩
  rw [h1]
  show MaybeOnDevice _ S cr cb = _
  rw [maybeOnDevice_nested_eq x (if cr || cb then S else SEScope.fullyUnconstrained) S
    cr cb cr cb hS]
  cases cr <;> cases cb <;> simp [OnDevice, hS]

/-- Witness for C5 (amended): re-wrapping a freshly annotated call
expression with the identical scope and flags returns the same single
annotation. -/
theorem rewrap_identical_idempotent_witness :
    scopeA.IsFullyUnconstrained = false
    ∧ GetOnDeviceProps (Expr.otherExpr 5) = Except.ok OnDeviceProps.noProps
    ∧ (MaybeOnDevice (Expr.otherExpr 5) scopeA true false
        = Except.ok (Expr.call OnDeviceOp [Expr.otherExpr 5]
            (Attrs.onDeviceAttrs
              (if true || false then scopeA else SEScope.fullyUnconstrained) true false))
      ∧ (MaybeOnDevice (Expr.otherExpr 5) scopeA true false).bind
          (fun w => MaybeOnDevice w scopeA true false)
        = MaybeOnDevice (Expr.otherExpr 5) scopeA true false) :=
  ⟨rfl, rfl,
    rewrap_identical_idempotent (Expr.otherExpr 5) scopeA true false rfl rfl rfl⟩

/-- Counterexample for C5 as stated ("for every expression x, scope S,
and flags"): with the fully-unconstrained scope both applications return
the expression unchanged, and the result is not an annotation at all
(its decomposition has no body), so re-wrapping does not yield a single
annotation. -/
theorem rewrap_unconstrained_not_single_wrap :
    (MaybeOnDevice (Expr.otherExpr 6) SEScope.fullyUnconstrained true true).bind
        (fun w => MaybeOnDevice w SEScope.fullyUnconstrained true true)
      = Except.ok (Expr.otherExpr 6)
    ∧ GetOnDeviceProps (Expr.otherExpr 6) = Except.ok OnDeviceProps.noProps :=
  ⟨rfl, rfl⟩

end RelayOnDevice
